import Mathlib

/-!
Shallow embedding of the `atc0005/go-check-plugins` repository:
the CloudWatch Logs plugin (`check-cloudwatch-logs`), the NTP offset
plugin (`check-ntpoffset/lib/check-ntpoffset.go`) and the MySQL plugin
(`check-mysql/lib/check-mysql.go`), together with proofs about them.

Strings are modelled with Lean `String`; Go `strings.Split` is
`String.splitOn` (both keep empty pieces and return a singleton list on
an input without the separator), Go `strings.Fields` splits on
whitespace runs and drops empty pieces, and `strconv.ParseFloat` /
`strconv.Atoi` are modelled exactly over `ℚ` / `ℤ` in plain decimal
notation (float64 rounding and exponent forms are not modelled; every
numeric literal appearing in the claims is a plain decimal).
Timing side effects (the 250 ms inter-page sleep and the "now minus 5
minutes" window anchor) are not modelled; they do not affect any claim.
-/

/-- Split a character list at every occurrence of `sep`, keeping empty
pieces; the accumulator holds the current piece reversed. -/
def splitCharAux (sep : Char) : List Char → List Char → List String
  | [], acc => [⟨acc.reverse⟩]
  | c :: cs, acc =>
    if c = sep then ⟨acc.reverse⟩ :: splitCharAux sep cs []
    else splitCharAux sep cs (c :: acc)

/-- Go `strings.Split(s, sep)` for a single-character separator (every
separator used by this repository — `"\n"`, `"="`, `"-"`, `"."` — is a
single character): split around every occurrence of `sep`, keeping
empty pieces, with `[""]` on the empty string. -/
def goSplit (sep : Char) (s : String) : List String :=
  splitCharAux sep s.data []

/-- Go `strings.HasPrefix(s, pre)` (and the `strings.Index(s, pre) == 0`
idiom of the ntpd parser). -/
def goHasPrefix (s pre : String) : Bool :=
  pre.data.isPrefixOf s.data

/-- Accumulating worker for `goFields`. -/
def fieldsAux : List Char → List Char → List String
  | [], [] => []
  | [], acc => [⟨acc.reverse⟩]
  | c :: cs, acc =>
    if c.isWhitespace then
      if acc = [] then fieldsAux cs []
      else ⟨acc.reverse⟩ :: fieldsAux cs []
    else fieldsAux cs (c :: acc)

/-- Go `strings.Fields`: split around runs of whitespace, dropping
empty pieces. -/
def goFields (s : String) : List String :=
  fieldsAux s.data []

/-- The four-level monitoring status of the `checkers` contract. -/
inductive Status where
  | ok
  | warning
  | critical
  | unknown
deriving DecidableEq

/-- A check result: a status together with a human-readable message,
as built by `checkers.NewChecker`. -/
structure Checker where
  status : Status
  message : String
deriving DecidableEq

/-- Go-style fallible result: a value or an error message, mirroring the
`(value, error)` return convention of the Go source. -/
inductive GoRes (α : Type) where
  | ok (v : α)
  | err (msg : String)
deriving DecidableEq

/-- Modelled from the spec: the `checkers` library (an external
dependency, not part of src/) maps statuses to process exit codes
"0=OK, 1=WARNING, 2=CRITICAL, 3=UNKNOWN". -/
def statusExitCode : Status → Int
  | .ok => 0
  | .warning => 1
  | .critical => 2
  | .unknown => 3

/-! ## Decimal parsing helpers (strconv) -/

/-- Numeric value of a list of decimal digit characters. -/
def digitsVal (cs : List Char) : Nat :=
  cs.foldl (fun n c => 10 * n + (c.toNat - 48)) 0

/-- Parse a nonempty all-digit character list, else `none`. -/
def parseDigits (cs : List Char) : Option Nat :=
  if cs ≠ [] ∧ cs.all Char.isDigit then some (digitsVal cs) else none

/-- Model of Go `strconv.Atoi`: optional sign followed by one or more
decimal digits; anything else is an error (overflow is not modelled). -/
def atoi (s : String) : Option Int :=
  match s.data with
  | '+' :: rest => (parseDigits rest).map fun n => (n : Int)
  | '-' :: rest => (parseDigits rest).map fun n => -(n : Int)
  | cs => (parseDigits cs).map fun n => (n : Int)

/-- Model of Go `strconv.ParseFloat` restricted to plain decimal
notation over `ℚ`: optional sign, an integer part, and an optional
fractional part after a single dot; at least one digit on each present
side. The decimal value is represented exactly as a rational. -/
def parseFloat (s : String) : Option ℚ :=
  let body : List Char → Option ℚ := fun cs =>
    let ip := cs.takeWhile (· ≠ '.')
    match cs.dropWhile (· ≠ '.') with
    | [] => (parseDigits ip).map fun n => (n : ℚ)
    | '.' :: fp =>
      if fp.contains '.' then none
      else
        match parseDigits ip, parseDigits fp with
        | some n, some f => some ((n : ℚ) + (f : ℚ) / (10 ^ fp.length))
        | _, _ => none
    | _ => none
  match s.data with
  | '+' :: rest => body rest
  | '-' :: rest => (body rest).map fun q => -q
  | cs => body cs

/-! ## CloudWatch Logs plugin (src/unnamed/part_000) -/

/-- The parsed CLI options of the CloudWatch Logs plugin (`logOpts`). -/
structure LogOpts where
  region : String
  accessKeyID : String
  secretAccessKey : String
  logGroupName : String
  pattern : String
  warningOver : Int
  criticalOver : Int
deriving DecidableEq

/-- The running plugin instance (`cloudwatchLogsPlugin`); the `Service`
field is abstracted away (the scripted response list passed to
`cwRunService` stands in for it). -/
structure CloudwatchLogsPlugin where
  logGroupName : String
  pattern : String
  warningOver : Int
  criticalOver : Int
deriving DecidableEq

/-- `newCloudwatchLogsPlugin`: the composite literal at the end of the
Go constructor sets only `LogGroupName` and `Pattern`; `WarningOver`
and `CriticalOver` are left at Go's zero value for `int`, which the
Lean structure literal makes explicit. Quantifying theorems over all
`LogOpts` values covers every argument list the flag parser accepts,
since the parser only ever produces a `logOpts` value. -/
def newCloudwatchLogsPlugin (opts : LogOpts) : CloudwatchLogsPlugin :=
  { logGroupName := opts.logGroupName
    pattern := opts.pattern
    warningOver := 0
    criticalOver := 0 }

/-- One response of the external log-search API
(`cloudwatchlogs.FilterLogEventsOutput`): the event messages of the
page and the optional continuation token. -/
structure FilterLogEventsOutput where
  events : List String
  nextToken : Option String
deriving DecidableEq

/-- Result of the paginated query loop `cloudwatchLogsPlugin.run` on a
scripted service: the accumulated messages or the first transport
error, in both cases with the number of requests issued; `outOfScript`
is a model artifact marking that the scripted response list was
exhausted while a continuation token remained. -/
inductive CwRunResult where
  | ok (messages : List String) (requests : Nat)
  | err (msg : String) (requests : Nat)
  | outOfScript
deriving DecidableEq

/-- The loop body of `cloudwatchLogsPlugin.run`: each iteration issues
one request (consuming the next scripted response), aborts on a request
error, appends every returned message in order, stops when the response
carries no continuation token, and otherwise continues with the token. -/
def cwRunService : List (GoRes FilterLogEventsOutput) → List String → Nat → CwRunResult
  | [], _, _ => .outOfScript
  | r :: rs, acc, n =>
    match r with
    | .err e => .err e (n + 1)
    | .ok out =>
      match out.nextToken with
      | none => .ok (acc ++ out.events) (n + 1)
      | some _ => cwRunService rs (acc ++ out.events) (n + 1)

/-- The evaluation step at the end of the CloudWatch `run` function:
CRITICAL when the message count exceeds `criticalOver`, else WARNING
when it exceeds `warningOver`, else OK; a `nil` message slice (which in
the loop coincides with the empty list, since `messages` only ever
grows by appending single events) yields OK with the fixed message
"ok". -/
def cwEvaluate (messages : List String) (warningOver criticalOver : Int) : Checker :=
  let status : Status :=
    if (messages.length : Int) > criticalOver then .critical
    else if (messages.length : Int) > warningOver then .warning
    else .ok
  if messages ≠ [] then ⟨status, String.join messages⟩
  else ⟨.ok, "ok"⟩

/-- The outer `run` of the CloudWatch plugin after construction: a
request error surfaces as UNKNOWN with the error text, a completed loop
goes through the threshold evaluation; `none` when the scripted
responses ran out (a scenario outside the model). -/
def cwRun (responses : List (GoRes FilterLogEventsOutput))
    (warningOver criticalOver : Int) : Option Checker :=
  match cwRunService responses [] 0 with
  | .ok messages _ => some (cwEvaluate messages warningOver criticalOver)
  | .err e _ => some ⟨.unknown, e⟩
  | .outOfScript => none

/-! ## NTP offset plugin (src/check-ntpoffset/lib/check-ntpoffset.go) -/

/-- The error message of `parseNTPOffsetFromNTPD`. -/
def ntpdErrMsg : String := "couldn't get ntp offset. ntpd process may be down"

/-- Go `strings.Trim(s, "\n")`: drop leading and trailing newline
characters. -/
def trimNewlines (s : String) : String :=
  ⟨((s.data.dropWhile (· = '\n')).reverse.dropWhile (· = '\n')).reverse⟩

/-- The `key=value` tail of `parseNTPOffsetFromNTPD`: the chosen line
must split on `=` into exactly two parts; the second part, with
newlines trimmed, is parsed as a float. -/
def parseOffsetLine (line : String) : GoRes ℚ :=
  match goSplit '=' line with
  | [_, v] =>
    match parseFloat (trimNewlines v) with
    | some q => .ok q
    | none => .err "strconv.ParseFloat: parsing failed"
  | _ => .err ntpdErrMsg

/-- `parseNTPOffsetFromNTPD` (Parser A): split the whole output on
newlines; with exactly 2 lines take the first, with exactly 3 lines
take the second but only when the first starts with `assID=0`; any
other shape is an error; then parse the chosen line as `key=value`. -/
def parseNTPOffsetFromNTPD (output : String) : GoRes ℚ :=
  match goSplit '\n' output with
  | [l0, _] => parseOffsetLine l0
  | [l0, l1, _] =>
    if goHasPrefix l0 "assID=0" then parseOffsetLine l1
    else .err ntpdErrMsg
  | _ => .err ntpdErrMsg

/-- The error message of `parseNTPOffsetFromChrony`. -/
def chronyErrMsg : String := "failed to get ntp offset"

/-- Handling of a line that starts with "Last offset" in
`parseNTPOffsetFromChrony`: exactly 5 whitespace-separated fields are
required; field index 3 is parsed as a float number of seconds and
multiplied by 1000 into milliseconds. -/
def chronyOffsetLine (line : String) : GoRes ℚ :=
  let flds := goFields line
  if flds.length = 5 then
    match parseFloat flds[3]! with
    | some q => .ok (q * 1000)
    | none => .err "strconv.ParseFloat: parsing failed"
  else .err chronyErrMsg

/-- `parseNTPOffsetFromChrony` (Parser B): scan the lines in order for
the first one starting with "Last offset" and hand it to
`chronyOffsetLine`; no such line is an error. The `bufio.Scanner` of
the Go source is modelled by taking the output as a list of lines. -/
def parseNTPOffsetFromChrony : List String → GoRes ℚ
  | [] => .err chronyErrMsg
  | line :: rest =>
    if goHasPrefix line "Last offset" then chronyOffsetLine line
    else parseNTPOffsetFromChrony rest

/-- Default warning threshold of the NTP plugin (ms), from the
`default:"50"` tag on `opts.Warn`. -/
def ntpDefaultWarn : ℚ := 50

/-- Default critical threshold of the NTP plugin (ms), from the
`default:"100"` tag on `opts.Crit`. -/
def ntpDefaultCrit : ℚ := 100

/-- The threshold evaluation of the NTP plugin's `run`: CRITICAL when
`crit < |offset|`, else WARNING when `warn < |offset|`, else OK. -/
def ntpClassify (warn crit offset : ℚ) : Status :=
  if crit < |offset| then .critical
  else if warn < |offset| then .warning
  else .ok

/-- Severity rank of a measured status, for the monotonicity claim:
OK < WARNING < CRITICAL. -/
def severity : Status → Nat
  | .ok => 0
  | .warning => 1
  | .critical => 2
  | .unknown => 3

/-- `getNtpOffset`: a daemon-detection failure propagates; daemon
"ntpd" runs `ntpq` (whose launch may fail) and Parser A on its output;
daemon "chronyd" runs `chronyc tracking` and Parser B; any other
detected name is the "unsupported ntp daemon" error. The subprocess
outputs are passed in as `GoRes` values standing for the launch-or-
capture step. -/
def getNtpOffset (detected : GoRes String)
    (ntpdOutput : GoRes String) (chronyOutput : GoRes (List String)) : GoRes ℚ :=
  match detected with
  | .err e => .err e
  | .ok name =>
    if name = "ntpd" then
      match ntpdOutput with
      | .err e => .err e
      | .ok out => parseNTPOffsetFromNTPD out
    else if name = "chronyd" then
      match chronyOutput with
      | .err e => .err e
      | .ok lines => parseNTPOffsetFromChrony lines
    else .err ("unsupported ntp daemon " ++ name)

/-- The status component of the NTP plugin's `run`: a failed
measurement surfaces as UNKNOWN (`checkers.Unknown`), a measured offset
goes through `ntpClassify`. The message strings (built with
`fmt.Sprintf` float formatting) are not modelled. -/
def ntpRunStatus (offsetRes : GoRes ℚ) (warn crit : ℚ) : Status :=
  match offsetRes with
  | .err _ => .unknown
  | .ok offset => ntpClassify warn crit offset

/-! ## MySQL plugin (src/check-mysql/lib/check-mysql.go) -/

/-- The structured version value (`mysqlVersion`). -/
structure MysqlVersion where
  major : Int
  minor : Int
  patch : Int
  stability : String
deriving DecidableEq

/-- Outcome of running a piece of Go code that may also panic at
runtime: a value, a returned error, or a panic. -/
inductive GoOutcome (α : Type) where
  | ok (v : α)
  | err (msg : String)
  | panic (msg : String)
deriving DecidableEq

/-- The version-string parsing part of `getMySQLVersion` (the SQL query
producing `rawVersion` is abstracted away): split on `-` for an
optional stability suffix, split the first segment on `.`, and convert
components 0, 1, 2 with `strconv.Atoi`, each conversion failure being a
returned parse error. The Go code indexes `versionSplitted[1]` and
`versionSplitted[2]` without a length check, so a missing component is
an index-out-of-range panic, not an error. -/
def parseMySQLVersion (rawVersion : String) : GoOutcome MysqlVersion :=
  let splitted := goSplit '-' rawVersion
  let stability := if 1 < splitted.length then splitted[1]! else ""
  let versionSplitted := goSplit '.' splitted.headI
  match atoi versionSplitted.headI with
  | none => .err "Failed to parse version"
  | some major =>
    match versionSplitted.get? 1 with
    | none => .panic "runtime error: index out of range"
    | some s1 =>
      match atoi s1 with
      | none => .err "Failed to parse version"
      | some minor =>
        match versionSplitted.get? 2 with
        | none => .panic "runtime error: index out of range"
        | some s2 =>
          match atoi s2 with
          | none => .err "Failed to parse version"
          | some patch => .ok ⟨major, minor, patch, stability⟩

/-- Modelled from the spec: the subcommand bodies (`checkReplication`,
`checkConnection`, `checkUptime`, `checkReadOnly`) are not part of
src/; the spec states that a version parse error is "a hard parse error
surfaced as UNKNOWN, not as a default version". This is the surfacing
of a version-parse outcome into a status by such a caller. -/
def surfaceVersionOutcome : GoOutcome MysqlVersion → Option Status
  | .err _ => some .unknown
  | _ => none

/-- The registered subcommand names (the keys of the `commands` map). -/
def mysqlCommands : List String := ["replication", "connection", "uptime", "readonly"]

/-- `separateSub`: an empty argument list or a first argument starting
with `-` gives the empty subcommand name and leaves the arguments
untouched; otherwise the first argument is the subcommand name. -/
def separateSub (argv : List String) : String × List String :=
  match argv with
  | [] => ("", argv)
  | a :: rest => if goHasPrefix a "-" then ("", argv) else (a, rest)

/-- Outcome of the dispatch layer `Do`: either the usage-error path
(print the subcommand names, `os.Exit` with the given code) or the
dispatch to a registered subcommand. -/
inductive DispatchOutcome where
  | usageExit (code : Int) (listed : List String)
  | dispatch (sub : String) (argv : List String)
deriving DecidableEq

/-- The dispatch layer of `Do`: look the separated subcommand name up
in the `commands` map; on a miss print the registered names and call
`os.Exit(1)`; on a hit run the subcommand on the remaining
arguments. -/
def mysqlDo (argv : List String) : DispatchOutcome :=
  let subCmd := (separateSub argv).1
  let rest := (separateSub argv).2
  if subCmd ∈ mysqlCommands then .dispatch subCmd rest
  else .usageExit 1 mysqlCommands

/-! ## Theorems -/

/-- Claim C1: for every argument list accepted by the flag parser — that
is, for every parsed `logOpts` value the parser can produce — the plugin
instance built by `newCloudwatchLogsPlugin` has `WarningOver = 0` and
`CriticalOver = 0`, regardless of the values given to `--warning-over`
and `--critical-over`: the parsed thresholds are never copied into the
running plugin instance. -/
theorem cloudwatch_thresholds_never_copied (opts : LogOpts) :
    (newCloudwatchLogsPlugin opts).warningOver = 0 ∧
    (newCloudwatchLogsPlugin opts).criticalOver = 0 := by
  constructor <;> rfl

/-- Claim C2: on a scripted response sequence with continuation tokens
`[t1, t2, none]` and message counts `[3, 4, 0]`, the paginated query
loop issues exactly 3 requests and returns the 7 messages in order;
moreover the loop stops exactly when a response carries no continuation
token: a token-free response ends the loop at once, a response with a
token continues it. -/
theorem cloudwatch_pagination_three_pages :
    (∀ (t1 t2 : String) (m1 m2 : List String),
      m1.length = 3 → m2.length = 4 →
      cwRunService [.ok ⟨m1, some t1⟩, .ok ⟨m2, some t2⟩, .ok ⟨[], none⟩] [] 0
        = .ok (m1 ++ m2) 3 ∧ (m1 ++ m2).length = 7) ∧
    (∀ (out : FilterLogEventsOutput) (rest : List (GoRes FilterLogEventsOutput))
        (acc : List String) (n : Nat), out.nextToken = none →
      cwRunService (.ok out :: rest) acc n = .ok (acc ++ out.events) (n + 1)) ∧
    (∀ (out : FilterLogEventsOutput) (rest : List (GoRes FilterLogEventsOutput))
        (acc : List String) (n : Nat) (t : String), out.nextToken = some t →
      cwRunService (.ok out :: rest) acc n = cwRunService rest (acc ++ out.events) (n + 1)) := by
  refine ⟨?_, ?_, ?_⟩
  · intro t1 t2 m1 m2 h1 h2
    constructor
    · simp [cwRunService]
    · simp [h1, h2]
  · intro out rest acc n h
    simp [cwRunService, h]
  · intro out rest acc n t h
    simp [cwRunService, h]

/-- Witness for C2 at the concrete scripted responses of the spec's
test scenario. -/
theorem cloudwatch_pagination_three_pages_witness :
    cwRunService [.ok ⟨["a", "b", "c"], some "t1"⟩, .ok ⟨["d", "e", "f", "g"], some "t2"⟩,
        .ok ⟨[], none⟩] [] 0
      = .ok ["a", "b", "c", "d", "e", "f", "g"] 3 ∧
    (["a", "b", "c"] ++ ["d", "e", "f", "g"] : List String).length = 7 := by
  have h := cloudwatch_pagination_three_pages.1 "t1" "t2" ["a", "b", "c"] ["d", "e", "f", "g"]
    (by decide) (by decide)
  simpa using h

/-- Claim C3: the evaluation step of the CloudWatch plugin classifies a
non-nil message list by count with exclusive boundaries — count above
critical is CRITICAL, else above warning is WARNING, else OK — joining
the messages into the output; with thresholds (5, 10) the counts
0, 5, 6, 10, 11 classify as OK, OK, WARNING, WARNING, CRITICAL; and a
nil list (no message ever appended) yields OK with the fixed message
"ok". -/
theorem cloudwatch_threshold_evaluation :
    (∀ (msgs : List String) (w c : Int), msgs ≠ [] →
      cwEvaluate msgs w c =
        ⟨if (msgs.length : Int) > c then .critical
          else if (msgs.length : Int) > w then .warning else .ok,
          String.join msgs⟩) ∧
    (∀ w c : Int, cwEvaluate [] w c = ⟨.ok, "ok"⟩) ∧
    (cwEvaluate [] 5 10).status = .ok ∧
    (cwEvaluate (List.replicate 5 "x") 5 10).status = .ok ∧
    (cwEvaluate (List.replicate 6 "x") 5 10).status = .warning ∧
    (cwEvaluate (List.replicate 10 "x") 5 10).status = .warning ∧
    (cwEvaluate (List.replicate 11 "x") 5 10).status = .critical := by
  refine ⟨?_, ?_, by decide, by decide, by decide, by decide, by decide⟩
  · intro msgs w c h
    simp [cwEvaluate, h]
  · intro w c
    simp [cwEvaluate]

/-- Witness for C3 at a concrete non-empty message list. -/
theorem cloudwatch_threshold_evaluation_witness :
    cwEvaluate ["a"] 5 10 = ⟨.ok, "a"⟩ := by
  have h := cloudwatch_threshold_evaluation.1 ["a"] 5 10 (by decide)
  simpa [String.join] using h

/-- Claim C4: every failure to obtain a measurement yields UNKNOWN,
never CRITICAL, regardless of thresholds — a transport or
authentication error in any paginated CloudWatch request, and in the
NTP plugin a daemon-detection failure, an unsupported daemon name, a
subprocess-launch failure or a parse failure of either daemon's
output. -/
theorem measurement_failure_yields_unknown :
    (∀ (responses : List (GoRes FilterLogEventsOutput)) (w c : Int) (e : String) (n : Nat),
      cwRunService responses [] 0 = .err e n →
      cwRun responses w c = some ⟨.unknown, e⟩) ∧
    (∀ (e : String) (w c : ℚ), ntpRunStatus (.err e) w c = .unknown) ∧
    (∀ (e : String) (nOut : GoRes String) (cOut : GoRes (List String)) (w c : ℚ),
      ntpRunStatus (getNtpOffset (.err e) nOut cOut) w c = .unknown) ∧
    (∀ (e : String) (cOut : GoRes (List String)) (w c : ℚ),
      ntpRunStatus (getNtpOffset (.ok "ntpd") (.err e) cOut) w c = .unknown) ∧
    (∀ (e : String) (nOut : GoRes String) (w c : ℚ),
      ntpRunStatus (getNtpOffset (.ok "chronyd") nOut (.err e)) w c = .unknown) ∧
    (∀ (out : String) (cOut : GoRes (List String)) (w c : ℚ) (e : String),
      parseNTPOffsetFromNTPD out = .err e →
      ntpRunStatus (getNtpOffset (.ok "ntpd") (.ok out) cOut) w c = .unknown) ∧
    (∀ (lines : List String) (nOut : GoRes String) (w c : ℚ) (e : String),
      parseNTPOffsetFromChrony lines = .err e →
      ntpRunStatus (getNtpOffset (.ok "chronyd") nOut (.ok lines)) w c = .unknown) ∧
    (∀ (name : String) (nOut : GoRes String) (cOut : GoRes (List String)) (w c : ℚ),
      name ≠ "ntpd" → name ≠ "chronyd" →
      ntpRunStatus (getNtpOffset (.ok name) nOut cOut) w c = .unknown) ∧
    Status.unknown ≠ Status.critical := by
  refine ⟨?_, ?_, ?_, ?_, ?_, ?_, ?_, ?_, by decide⟩
  · intro responses w c e n h
    simp [cwRun, h]
  · intro e w c
    rfl
  · intro e nOut cOut w c
    rfl
  · intro e cOut w c
    rfl
  · intro e nOut w c
    rfl
  · intro out cOut w c e h
    simp [getNtpOffset, h, ntpRunStatus]
  · intro lines nOut w c e h
    simp [getNtpOffset, h, ntpRunStatus]
  · intro name nOut cOut w c h1 h2
    simp [getNtpOffset, h1, h2, ntpRunStatus]

/-- Witness for C4 at a concrete failing CloudWatch request. -/
theorem measurement_failure_yields_unknown_witness :
    cwRun [.err "connection refused"] 0 0 = some ⟨.unknown, "connection refused"⟩ := by
  exact measurement_failure_yields_unknown.1 [.err "connection refused"] 0 0
    "connection refused" 1 (by decide)

/-- Claim C5: the ntpd output parser splits the text on newlines; with
exactly 2 lines it parses the first line, with exactly 3 lines it
parses the second line but only when the first starts with `assID=0`
(a 3-line input without that prefix is an error); any other line count
is an error; the chosen line must split on `=` into exactly two parts,
the second part being parsed as a float after trimming newlines; and
the spec's two concrete inputs parse to 0.180 and 12.5. -/
theorem ntpd_offset_parsing :
    (∀ (output l0 l1 : String), goSplit '\n' output = [l0, l1] →
      parseNTPOffsetFromNTPD output = parseOffsetLine l0) ∧
    (∀ (output l0 l1 l2 : String), goSplit '\n' output = [l0, l1, l2] →
      goHasPrefix l0 "assID=0" = true →
      parseNTPOffsetFromNTPD output = parseOffsetLine l1) ∧
    (∀ (output l0 l1 l2 : String), goSplit '\n' output = [l0, l1, l2] →
      goHasPrefix l0 "assID=0" = false →
      parseNTPOffsetFromNTPD output = .err ntpdErrMsg) ∧
    (∀ output : String, (goSplit '\n' output).length ≠ 2 →
      (goSplit '\n' output).length ≠ 3 →
      parseNTPOffsetFromNTPD output = .err ntpdErrMsg) ∧
    (∀ (line k v : String) (q : ℚ), goSplit '=' line = [k, v] →
      parseFloat (trimNewlines v) = some q → parseOffsetLine line = .ok q) ∧
    (∀ line : String, (goSplit '=' line).length ≠ 2 →
      parseOffsetLine line = .err ntpdErrMsg) ∧
    parseNTPOffsetFromNTPD
        "assID=0 status=06f4 leap_none, sync_ntp, 15 events, event_peer/strat_chg,\noffset=0.180\n"
      = .ok (0.180 : ℚ) ∧
    parseNTPOffsetFromNTPD "offset=12.5\n" = .ok (12.5 : ℚ) := by
  refine ⟨?_, ?_, ?_, ?_, ?_, ?_, ?_, ?_⟩
  · intro output l0 l1 h
    simp [parseNTPOffsetFromNTPD, h]
  · intro output l0 l1 l2 h hp
    simp [parseNTPOffsetFromNTPD, h, hp]
  · intro output l0 l1 l2 h hp
    simp [parseNTPOffsetFromNTPD, h, hp]
  · intro output h2 h3
    rcases h : goSplit '\n' output with _ | ⟨a, _ | ⟨b, _ | ⟨c, _ | d⟩⟩⟩ <;>
      simp [h] at h2 h3 ⊢ <;> simp [parseNTPOffsetFromNTPD, h]
  · intro line k v q h hf
    simp [parseOffsetLine, h, hf]
  · intro line h
    rcases hl : goSplit '=' line with _ | ⟨a, _ | ⟨b, _ | c⟩⟩ <;>
      simp [hl] at h ⊢ <;> simp [parseOffsetLine, hl]
  · simp [parseNTPOffsetFromNTPD, goSplit, splitCharAux, goHasPrefix, parseOffsetLine,
      trimNewlines, parseFloat, parseDigits, digitsVal]
    norm_num
  · simp [parseNTPOffsetFromNTPD, goSplit, splitCharAux, goHasPrefix, parseOffsetLine,
      trimNewlines, parseFloat, parseDigits, digitsVal]
    norm_num

/-- Witness for C5 at a concrete 2-line input. -/
theorem ntpd_offset_parsing_witness :
    parseNTPOffsetFromNTPD "offset=1\n" = parseOffsetLine "offset=1" := by
  exact ntpd_offset_parsing.1 "offset=1\n" "offset=1" "" (by decide)

/-- Claim C6: the chrony output parser scans the lines in order for the
first one beginning with "Last offset" (a non-matching line is skipped,
no matching line is an error); the matching line must have exactly 5
whitespace-separated fields, field index 3 is parsed as a float number
of seconds and returned multiplied by 1000 (milliseconds), any other
field count being an error; the spec's concrete line parses to
-0.000123456 × 1000 ms and its 4-field and 6-field variants are
errors. -/
theorem chrony_offset_parsing :
    parseNTPOffsetFromChrony [] = .err chronyErrMsg ∧
    (∀ (line : String) (rest : List String), goHasPrefix line "Last offset" = false →
      parseNTPOffsetFromChrony (line :: rest) = parseNTPOffsetFromChrony rest) ∧
    (∀ (line : String) (rest : List String), goHasPrefix line "Last offset" = true →
      parseNTPOffsetFromChrony (line :: rest) = chronyOffsetLine line) ∧
    (∀ line : String, (goFields line).length ≠ 5 →
      chronyOffsetLine line = .err chronyErrMsg) ∧
    (∀ (line : String) (q : ℚ), (goFields line).length = 5 →
      parseFloat (goFields line)[3]! = some q → chronyOffsetLine line = .ok (q * 1000)) ∧
    parseNTPOffsetFromChrony ["Last offset     : -0.000123456 seconds"]
      = .ok ((-0.000123456 : ℚ) * 1000) ∧
    parseNTPOffsetFromChrony ["Last offset : -0.000123456"] = .err chronyErrMsg ∧
    parseNTPOffsetFromChrony ["Last offset     : -0.000123456 seconds extra"]
      = .err chronyErrMsg := by
  refine ⟨rfl, ?_, ?_, ?_, ?_, ?_, ?_, ?_⟩
  · intro line rest h
    simp [parseNTPOffsetFromChrony, h]
  · intro line rest h
    simp [parseNTPOffsetFromChrony, h]
  · intro line h
    simp [chronyOffsetLine, h]
  · intro line q h hf
    simp [chronyOffsetLine, h, hf]
  · simp [parseNTPOffsetFromChrony, goHasPrefix, chronyOffsetLine, goFields, fieldsAux,
      parseFloat, parseDigits, digitsVal]
    norm_num
  · simp [parseNTPOffsetFromChrony, goHasPrefix, chronyOffsetLine, goFields, fieldsAux]
  · simp [parseNTPOffsetFromChrony, goHasPrefix, chronyOffsetLine, goFields, fieldsAux]

/-- Witness for C6 at a concrete skipped line. -/
theorem chrony_offset_parsing_witness :
    parseNTPOffsetFromChrony ["Reference ID    : 0A0A0A0A"] = parseNTPOffsetFromChrony [] := by
  exact chrony_offset_parsing.2.1 "Reference ID    : 0A0A0A0A" [] (by decide)

/-- Claim C7: the NTP plugin's classification depends only on the
absolute value of the measured offset — CRITICAL when
`crit < |offset|`, else WARNING when `warn < |offset|`, else OK, with
defaults warning 50 ms and critical 100 ms — and is therefore
monotonic: for fixed thresholds, an offset of no larger absolute value
never gets a more severe status. -/
theorem ntp_classification_monotone :
    (∀ w c o : ℚ, ntpClassify w c o = ntpClassify w c |o|) ∧
    (∀ w c o : ℚ, c < |o| → ntpClassify w c o = .critical) ∧
    (∀ w c o : ℚ, ¬c < |o| → w < |o| → ntpClassify w c o = .warning) ∧
    (∀ w c o : ℚ, ¬c < |o| → ¬w < |o| → ntpClassify w c o = .ok) ∧
    (∀ w c o1 o2 : ℚ, |o1| ≤ |o2| →
      severity (ntpClassify w c o1) ≤ severity (ntpClassify w c o2)) ∧
    ntpDefaultWarn = 50 ∧ ntpDefaultCrit = 100 := by
  refine ⟨?_, ?_, ?_, ?_, ?_, rfl, rfl⟩
  · intro w c o
    simp [ntpClassify, abs_abs]
  · intro w c o h
    simp [ntpClassify, h]
  · intro w c o h1 h2
    simp [ntpClassify, h1, h2]
  · intro w c o h1 h2
    simp [ntpClassify, h1, h2]
  · intro w c o1 o2 h
    unfold ntpClassify
    split_ifs with hc1 hc2 hw1 hc2 hw1 hw2 <;> simp [severity] <;> linarith

/-- Witness for C7 at concrete offsets 60 and 120 with the default
thresholds. -/
theorem ntp_classification_monotone_witness :
    severity (ntpClassify 50 100 60) ≤ severity (ntpClassify 50 100 120) := by
  exact ntp_classification_monotone.2.2.2.2.1 50 100 60 120 (by decide)

/-- Claim C8: the MySQL version parser takes the optional stability
suffix from the first `-` split, splits the first segment on `.` into
numeric major/minor/patch: "8.0.1-dmr" gives (8, 0, 1, "dmr"),
"5.7.2" has empty stability, a non-numeric first component such as in
"abc.0.1" is a hard parse error — which the calling subcommand
surfaces as UNKNOWN — and never a default version. -/
theorem mysql_version_parsing :
    parseMySQLVersion "8.0.1-dmr" = .ok ⟨8, 0, 1, "dmr"⟩ ∧
    parseMySQLVersion "5.7.2" = .ok ⟨5, 7, 2, ""⟩ ∧
    parseMySQLVersion "abc.0.1" = .err "Failed to parse version" ∧
    (∀ raw : String, atoi (goSplit '.' (goSplit '-' raw).headI).headI = none →
      parseMySQLVersion raw = .err "Failed to parse version") ∧
    (∀ e : String, surfaceVersionOutcome (.err e) = some Status.unknown) ∧
    surfaceVersionOutcome (parseMySQLVersion "abc.0.1") = some Status.unknown := by
  refine ⟨by decide, by decide, by decide, ?_, fun e => rfl, by decide⟩
  intro raw h
  simp [parseMySQLVersion, h]

/-- Witness for C8 at a concrete non-numeric version string. -/
theorem mysql_version_parsing_witness :
    parseMySQLVersion "xyz" = .err "Failed to parse version" := by
  exact mysql_version_parsing.2.2.2.1 "xyz" (by decide)

/-- Counterexample for claim C9: on the empty argument list the
dispatch layer exits through the usage path with code 1 — which is
exactly the WARNING check-result exit code, so the usage-error code is
not distinct from the four check-result exit codes as the claim
states. -/
theorem mysql_dispatch_exit_code_counterexample :
    mysqlDo [] = .usageExit (statusExitCode .warning) mysqlCommands := by
  decide

/-- Claim C9 as amended: for every argument list whose first argument
is absent, begins with `-`, or names no registered subcommand, the
dispatch layer prints the list of valid subcommand names and exits with
the fixed non-zero code 1 — a usage error, not a check result, though
the code 1 coincides with the WARNING check-result exit code. -/
theorem mysql_dispatch_usage_exit :
    (∀ argv : List String, (separateSub argv).1 ∉ mysqlCommands →
      mysqlDo argv = .usageExit 1 mysqlCommands) ∧
    mysqlDo [] = .usageExit 1 mysqlCommands ∧
    (∀ (a : String) (rest : List String), goHasPrefix a "-" = true →
      mysqlDo (a :: rest) = .usageExit 1 mysqlCommands) ∧
    (∀ (a : String) (rest : List String), a ∉ mysqlCommands →
      mysqlDo (a :: rest) = .usageExit 1 mysqlCommands) ∧
    (1 : Int) ≠ 0 := by
  have base : ∀ argv : List String, (separateSub argv).1 ∉ mysqlCommands →
      mysqlDo argv = .usageExit 1 mysqlCommands := by
    intro argv h
    simp [mysqlDo, h]
  refine ⟨base, by decide, ?_, ?_, by decide⟩
  · intro a rest h
    apply base
    simp [separateSub, h, mysqlCommands]
  · intro a rest h
    apply base
    by_cases hp : goHasPrefix a "-"
    · simp [separateSub, hp, mysqlCommands]
    · simpa [separateSub, hp] using h

/-- Witness for C9 (amended) at a concrete unregistered subcommand. -/
theorem mysql_dispatch_usage_exit_witness :
    mysqlDo ["bogus"] = .usageExit 1 mysqlCommands := by
  exact mysql_dispatch_usage_exit.1 ["bogus"] (by decide)

/-- Counterexample for claim C10: "abc" is a version string whose first
dash-separated segment has fewer than three dot-separated components,
yet the parser returns the ordinary parse error instead of panicking —
the non-numeric first component makes `Atoi` fail before the
out-of-range index is ever reached. -/
theorem mysql_version_short_counterexample :
    (goSplit '.' (goSplit '-' "abc").headI).length < 3 ∧
    parseMySQLVersion "abc" = .err "Failed to parse version" := by
  constructor <;> decide

/-- Claim C10 as amended: the version parser indexes dot components 1
and 2 without a length check, so a version string whose first
dash-separated segment has fewer than three dot-separated components
panics with an out-of-range index — rather than returning a parse
error — whenever every component before the missing index parses as an
integer (as in "5.7" and "8"); a non-numeric earlier component still
produces the parse error first. -/
theorem mysql_version_short_panics :
    (∀ raw : String, (goSplit '.' (goSplit '-' raw).headI).length = 1 →
      (atoi (goSplit '.' (goSplit '-' raw).headI).headI).isSome →
      parseMySQLVersion raw = .panic "runtime error: index out of range") ∧
    (∀ raw : String, (goSplit '.' (goSplit '-' raw).headI).length = 2 →
      (atoi (goSplit '.' (goSplit '-' raw).headI).headI).isSome →
      (atoi (goSplit '.' (goSplit '-' raw).headI)[1]!).isSome →
      parseMySQLVersion raw = .panic "runtime error: index out of range") ∧
    parseMySQLVersion "5.7" = .panic "runtime error: index out of range" ∧
    parseMySQLVersion "8" = .panic "runtime error: index out of range" := by
  refine ⟨?_, ?_, by decide, by decide⟩
  · intro raw hlen hsome
    rcases hv : goSplit '.' (goSplit '-' raw).headI with _ | ⟨s0, _ | ⟨s1, rest⟩⟩ <;>
      rw [hv] at hlen <;> simp at hlen
    rw [hv] at hsome
    obtain ⟨m, hm⟩ := Option.isSome_iff_exists.mp hsome
    simp at hm
    simp [parseMySQLVersion, hv, hm]
  · intro raw hlen hsome0 hsome1
    rcases hv : goSplit '.' (goSplit '-' raw).headI with _ | ⟨s0, _ | ⟨s1, _ | ⟨s2, rest⟩⟩⟩ <;>
      rw [hv] at hlen <;> simp at hlen
    rw [hv] at hsome0 hsome1
    obtain ⟨m0, hm0⟩ := Option.isSome_iff_exists.mp hsome0
    obtain ⟨m1, hm1⟩ := Option.isSome_iff_exists.mp hsome1
    simp at hm0 hm1
    simp [parseMySQLVersion, hv, hm0, hm1]

/-- Witness for C10 (amended) at the concrete input "4.2". -/
theorem mysql_version_short_panics_witness :
    parseMySQLVersion "4.2" = .panic "runtime error: index out of range" := by
  exact mysql_version_short_panics.2.1 "4.2" (by decide) (by decide) (by decide)
